import Mathlib

/-!
Verification development for the os_credits billing service.

The embedding follows the sources under `src/os_credits` (layout
`src/os_credits/credits/tasks.py`, `billing.py`, `base_models.py`,
`influx/model.py`, `influx/client.py`).  Conventions used throughout:

* Python `Decimal` values are modelled as rationals (`ℚ`); the configured
  precision `OS_CREDITS_PRECISION = Decimal(10) ** -prec` is the parameter
  `prec : ℕ` and `Decimal.quantize` with the default `ROUND_HALF_EVEN`
  rounding is `quantize prec`.
* `datetime` values are modelled as integer microseconds since the epoch
  (microseconds are the resolution of Python's `datetime`).
* Fallible Python code is modelled with `Except`/`Option`; a raised
  exception is an `Except.error`.
* Python `dict`s keyed by strings/timestamps are association lists read via
  `List.lookup` and written via `pyDictSet` (insertion order preserved,
  overwrite in place, new keys appended — CPython `dict` semantics).
-/

namespace OSCredits

/-- Decidable equality on `Except`, used to evaluate the embedded
fallible functions on concrete inputs. -/
instance {ε α : Type} [DecidableEq ε] [DecidableEq α] : DecidableEq (Except ε α) := fun a b =>
  match a, b with
  | .ok x, .ok y =>
      if h : x = y then isTrue (by rw [h]) else isFalse (by simp [h])
  | .error x, .error y =>
      if h : x = y then isTrue (by rw [h]) else isFalse (by simp [h])
  | .ok _, .error _ => isFalse (by simp)
  | .error _, .ok _ => isFalse (by simp)

/-- Round a rational to an integer with round-half-to-even, the default
rounding mode (`ROUND_HALF_EVEN`) of Python's `decimal` module. -/
def roundHalfEven (x : ℚ) : ℤ :=
  let f := Rat.floor x
  if x - f < 1 / 2 then f
  else if 1 / 2 < x - f then f + 1
  else if f % 2 = 0 then f else f + 1

/-- `Decimal.quantize(Decimal(10) ** -prec)` with `ROUND_HALF_EVEN`:
round to `prec` fractional decimal digits, ties to even. -/
def quantize (prec : ℕ) (x : ℚ) : ℚ :=
  (roundHalfEven (x * 10 ^ prec) : ℚ) / 10 ^ prec

/-- A registered metric (`Metric`/`TotalUsageMetric` subclass in
`credits/base_models.py` and `credits/models.py`): a measurement name, a
human readable name, and the price `CREDITS_PER_VIRTUAL_HOUR`. -/
structure Metric where
  name : String
  friendly_name : String
  CREDITS_PER_VIRTUAL_HOUR : ℚ
deriving DecidableEq, Repr

/-- A usage measurement (`UsageMeasurement` in `credits/base_models.py`,
inheriting `measurement` and `timestamp` from `InfluxDBPoint` in
`influx/model.py`).  `timestamp` is in microseconds since the epoch, the
resolution of Python's `datetime`; `value` models the `float` field. -/
structure UsageMeasurement where
  measurement : String
  timestamp : ℤ
  location_id : ℤ
  project_name : String
  value : ℚ
  metric : Metric
deriving DecidableEq, Repr

/-- The billing state of one Perun group (`Group` in `perun/group.py`):
`credits_granted` (an `int`), `credits_used` (`None` or a `Decimal`) and
the per-metric map `credits_timestamps` from measurement name to the
timestamp last billed. -/
structure GroupState where
  name : String
  credits_granted : ℤ
  credits_used : Option ℚ
  credits_timestamps : List (String × ℤ)
deriving DecidableEq, Repr

/-- One billing-history record (`BillingHistory` in `credits/models.py`). -/
structure BillingHistory where
  measurement : String
  timestamp : ℤ
  credits_left : ℚ
  metric_name : String
  metric_friendly_name : String
deriving DecidableEq, Repr

/-- The exceptions `update_credits` and `calculate_credits` can raise
(`DenbiCreditsUsedMissing`, `CalculationResultError`, `TypeError`,
`MeasurementError`, and the `IndexError` from `list(...)[0]` on an empty
dict in `tasks.py` line 269). -/
inductive UpdateError where
  | denbiCreditsUsedMissing
  | calculationResultError
  | typeError
  | measurementError
  | indexError
deriving DecidableEq, Repr

/-- The observable outcome of one non-raising run of `update_credits`:
the in-memory group at return time, whether `group.save()` was executed,
the history record written to InfluxDB (if any), and whether the
`HalfOfCreditsLeft` notification was raised after the save. -/
structure UpdateOutcome where
  state : GroupState
  saved : Bool
  history : Option BillingHistory
  notification : Bool
deriving DecidableEq, Repr

/-- CPython `dict` write `d[k] = v` on an association list: overwrite in
place if the key exists, append otherwise. -/
def pyDictSet {κ α : Type} [DecidableEq κ] : List (κ × α) → κ → α → List (κ × α)
  | [], k, v => [(k, v)]
  | (k', v') :: rest, k, v =>
      if k' = k then (k', v) :: rest else (k', v') :: pyDictSet rest k v

/-- The more recent of two measurements, as sorted by
`calculate_credits` in `credits/billing.py` lines 26-29 (on a timestamp
tie the first argument is used as the newer one). -/
def newerOf (measurement1 measurement2 : UsageMeasurement) : UsageMeasurement :=
  if measurement1.timestamp < measurement2.timestamp then measurement2 else measurement1

/-- The older of two measurements, as sorted by `calculate_credits` in
`credits/billing.py` lines 26-29. -/
def olderOf (measurement1 measurement2 : UsageMeasurement) : UsageMeasurement :=
  if measurement1.timestamp < measurement2.timestamp then measurement1 else measurement2

/-- `TotalUsageMetric.calculate_credits` (`credits/base_models.py` lines
188-210): `TypeError` if the two measurements belong to different metric
classes, `MeasurementError` if `current_measurement` is older, otherwise
`(current.value - older.value) * CREDITS_PER_VIRTUAL_HOUR` quantized to
the configured precision. -/
def TotalUsageMetric.calculate_credits (prec : ℕ)
    (current_measurement older_measurement : UsageMeasurement) : Except UpdateError ℚ :=
  if current_measurement.metric ≠ older_measurement.metric then .error .typeError
  else if current_measurement.timestamp < older_measurement.timestamp then .error .measurementError
  else .ok (quantize prec
    ((current_measurement.value - older_measurement.value) *
      current_measurement.metric.CREDITS_PER_VIRTUAL_HOUR))

/-- The high-level `calculate_credits` (`credits/billing.py` lines 15-45):
sort the two measurements by their time field (named `timestamp` on the
measurement dataclass of `influx/model.py`; the `billing.py` snapshot
spells the access `measurement1.time`, the identical earlier revision in
`credits/measurements.py` lines 148-151 spells it `measurement1.timestamp`),
let the metric of the newer one compute the credits, and raise
`CalculationResultError` if the result is negative. -/
def calculate_credits (prec : ℕ)
    (measurement1 measurement2 : UsageMeasurement) : Except UpdateError ℚ :=
  match TotalUsageMetric.calculate_credits prec
      (newerOf measurement1 measurement2) (olderOf measurement1 measurement2) with
  | .error e => .error e
  | .ok credits => if credits < 0 then .error .calculationResultError else .ok credits

/-- `InfluxDBClient.previous_measurements` (`influx/client.py` lines
147-169): the store returns the points of this project and metric sorted
by timestamp descending (`ORDER BY time DESC` in `query_points`), and
`query_points_since` keeps yielding while `point.timestamp >= since` and
stops at the first older point.  `store` is the descending sequence the
time-series store holds; the result is the queried window as the
(insertion-ordered) dict `{point.timestamp: point}`. -/
def previous_measurements (store : List (ℤ × ℚ)) (since : ℤ) : List (ℤ × ℚ) :=
  store.takeWhile (fun p => since ≤ p.1)

/-- `update_credits` (`credits/tasks.py` lines 165-333), run against a
connected group.  Mirrors the source's control flow:

1. `credits_used is None`: error `DenbiCreditsUsedMissing` when
   `credits_timestamps` is non-empty, otherwise initialise with 0
   (lines 214-229).
2. No stored timestamp for this metric: store the current measurement's
   timestamp, save, and return (lines 230-247).
3. Stale measurement (`timestamp <= last_measurement_timestamp`): return
   without mutating anything (lines 253-258).
4. Query the window since the stored timestamp; if the stored timestamp
   itself has no value, set the metric's timestamp to the head of the
   (descending) window dict — `list(project_measurements)[0]`, an
   `IndexError` when the window is empty — save, and return
   (lines 262-286).
5. Equal values: return without mutating anything (lines 289-294).
6. Bill: compute the credits, advance the timestamp, add the credits;
   if the addition changed nothing, return without saving (lines
   296-311); otherwise write the history record, save, and raise the
   `HalfOfCreditsLeft` notification when the 50% line was crossed
   (lines 312-332). -/
def update_credits (prec : ℕ) (group : GroupState)
    (current_measurement : UsageMeasurement) (store : List (ℤ × ℚ)) :
    Except UpdateError UpdateOutcome :=
  let g1 : GroupState :=
    if group.credits_used = none then { group with credits_used := some 0 } else group
  if group.credits_used = none ∧ group.credits_timestamps ≠ [] then
    .error .denbiCreditsUsedMissing
  else
    match List.lookup current_measurement.measurement g1.credits_timestamps with
    | none =>
        let ts' := pyDictSet g1.credits_timestamps current_measurement.measurement
          current_measurement.timestamp
        .ok { state := { g1 with credits_timestamps := ts' },
              saved := true, history := none, notification := false }
    | some last_measurement_timestamp =>
        if current_measurement.timestamp ≤ last_measurement_timestamp then
          .ok { state := g1, saved := false, history := none, notification := false }
        else
          let project_measurements := previous_measurements store last_measurement_timestamp
          match List.lookup last_measurement_timestamp project_measurements with
          | none =>
              match project_measurements with
              | [] => .error .indexError
              | (oldest_measurement_timestamp, _) :: _ =>
                  let ts' := pyDictSet g1.credits_timestamps
                    current_measurement.measurement oldest_measurement_timestamp
                  .ok { state := { g1 with credits_timestamps := ts' },
                        saved := true, history := none, notification := false }
          | some last_value =>
              if current_measurement.value = last_value then
                .ok { state := g1, saved := false, history := none, notification := false }
              else
                let last_measurement : UsageMeasurement :=
                  { current_measurement with
                      timestamp := last_measurement_timestamp, value := last_value }
                match calculate_credits prec current_measurement last_measurement with
                | .error e => .error e
                | .ok credits_to_bill =>
                    let previous_group_credits := g1.credits_used.getD 0
                    let new_credits_used := previous_group_credits + credits_to_bill
                    let ts' := pyDictSet g1.credits_timestamps
                      current_measurement.measurement current_measurement.timestamp
                    let g2 : GroupState :=
                      { g1 with credits_timestamps := ts', credits_used := some new_credits_used }
                    if previous_group_credits = new_credits_used then
                      .ok { state := g2, saved := false, history := none, notification := false }
                    else
                      let billing_entry : BillingHistory :=
                        { measurement := group.name,
                          timestamp := current_measurement.timestamp,
                          credits_left := (group.credits_granted : ℚ) - new_credits_used,
                          metric_name := current_measurement.metric.name,
                          metric_friendly_name := current_measurement.metric.friendly_name }
                      let half := (group.credits_granted : ℚ) / 2
                      .ok { state := g2, saved := true, history := some billing_entry,
                            notification :=
                              decide (previous_group_credits ≤ half ∧ half < new_credits_used) }

/-- The persisted effect of one task on the group's stored state: the
attribute store changes only when `group.save()` ran; an in-memory group
that raised or returned without saving is discarded. -/
def runMeasurement (prec : ℕ) (g : GroupState) (m : UsageMeasurement)
    (store : List (ℤ × ℚ)) : GroupState :=
  match update_credits prec g m store with
  | .ok r => if r.saved then r.state else g
  | .error _ => g

/-- One iteration of the worker loop (`tasks.py` lines 71-100) against the
tasks of a single project: an exception escaping the task bumps
`worker_exceptions_counter` and leaves the stored state alone; the loop
itself always proceeds to the next queue item. -/
def workerStep (prec : ℕ) (store : List (ℤ × ℚ)) (acc : GroupState × ℕ)
    (m : UsageMeasurement) : GroupState × ℕ :=
  match update_credits prec acc.1 m store with
  | .ok r => (if r.saved then r.state else acc.1, acc.2)
  | .error _ => (acc.1, acc.2 + 1)

/-- The worker loop over a queue of decoded measurements of one project:
state after draining the queue together with the exception counter. -/
def workerLoop (prec : ℕ) (store : List (ℤ × ℚ)) (acc : GroupState × ℕ)
    (tasks : List UsageMeasurement) : GroupState × ℕ :=
  tasks.foldl (workerStep prec store) acc

/-- Relation between consecutive stored states: stored `credits_used`,
once initialised, never shrinks. -/
def usedMono (s t : GroupState) : Prop :=
  ∀ c : ℚ, s.credits_used = some c → ∃ c', t.credits_used = some c' ∧ c ≤ c'

/-! ### The Influx line protocol (`influx/model.py`, `influx/helper.py`)

Python `str` values are modelled as `List Char`; a Lean `String` is
converted with `String.data`/`String.mk`. -/

/-- The decode failures of `from_lineprotocol`; both are caught together
in `process_influx_line` (`tasks.py` lines 130-138). -/
inductive DecodeError where
  | keyError
  | valueError
deriving DecidableEq, Repr

/-- The character of a decimal digit. -/
def digitChar : ℕ → Char
  | 0 => '0' | 1 => '1' | 2 => '2' | 3 => '3' | 4 => '4'
  | 5 => '5' | 6 => '6' | 7 => '7' | 8 => '8' | _ => '9'

/-- The numeric value of a decimal digit character. -/
def charToDigit (c : Char) : ℕ := c.toNat - 48

/-- Python `str(n)` for a non-negative integer. -/
def pyStrNat (n : ℕ) : List Char :=
  if n = 0 then ['0'] else ((Nat.digits 10 n).map digitChar).reverse

/-- Python `str(i)` for an `int`. -/
def pyStrInt (i : ℤ) : List Char :=
  (if i < 0 then ['-'] else []) ++ pyStrNat i.natAbs

/-- Python `str(x)` for a `float` with the value `q`, which for a finite
float is a rational with a finite decimal expansion.  The source prints
the shortest decimal digit string that parses back to the same float;
this model prints the same number with `q.den` fractional digits (always
at least one, as `str(float)` does), which `float(...)` parses back to
the same value — the property `from_lineprotocol` relies on. -/
def pyStrFloat (q : ℚ) : List Char :=
  let k : ℕ := q.den
  let mant : ℕ := (q * 10 ^ k).num.natAbs
  let ip := mant / 10 ^ k
  let fp := mant % 10 ^ k
  let fracDigits := Nat.digits 10 fp ++ List.replicate (k - (Nat.digits 10 fp).length) 0
  (if q < 0 then ['-'] else []) ++ pyStrNat ip ++ '.' :: (fracDigits.map digitChar).reverse

/-- Horner evaluation of a digit-character string. -/
def natVal (l : List Char) : ℕ := l.foldl (fun a c => 10 * a + charToDigit c) 0

/-- Python `int(s)` on an unsigned digit string: all characters must be
digits and at least one must be present. -/
def pyParseNat (l : List Char) : Option ℕ :=
  if l ≠ [] ∧ l.all Char.isDigit then some (natVal l) else none

/-- Python `int(s)`: an optional sign followed by digits. -/
def pyParseInt (l : List Char) : Option ℤ :=
  if l.head? = some '-' then (pyParseNat l.tail).map (fun n : ℕ => -(n : ℤ))
  else if l.head? = some '+' then (pyParseNat l.tail).map (fun n : ℕ => (n : ℤ))
  else (pyParseNat l).map (fun n : ℕ => (n : ℤ))

/-- Python `s.split(sep, 1)`: split at the first occurrence of `sep`.
`none` models the `ValueError` of unpacking a 1-element split result
into two variables when `sep` does not occur. -/
def pySplitFirst (sep : Char) : List Char → Option (List Char × List Char)
  | [] => none
  | c :: rest =>
      if c = sep then some ([], rest)
      else (pySplitFirst sep rest).map (fun p => (c :: p.1, p.2))

/-- Python `float(s)` on an unsigned decimal string: either a digit
string or `<digits>.<digits>` with at least one digit present. -/
def pyParseUFloat (l : List Char) : Option ℚ :=
  match pySplitFirst '.' l with
  | none => (pyParseNat l).map (fun n : ℕ => (n : ℚ))
  | some (ip, fp) =>
      if ip.all Char.isDigit ∧ fp.all Char.isDigit ∧ ¬(ip = [] ∧ fp = []) then
        some ((natVal ip : ℚ) + (natVal fp : ℚ) / 10 ^ fp.length)
      else none

/-- Python `float(s)` restricted to plain decimal notation, the format
`str(float)` emits for the measurement values at hand. -/
def pyParseFloat (l : List Char) : Option ℚ :=
  if l.head? = some '-' then (pyParseUFloat l.tail).map (fun q => -q)
  else if l.head? = some '+' then pyParseUFloat l.tail
  else pyParseUFloat l

/-- Worker of `pySplitWS`; `acc` is the reversed current token. -/
def pySplitWSAux : List Char → List Char → List (List Char)
  | [], acc => if acc.isEmpty then [] else [acc.reverse]
  | c :: rest, acc =>
      if c.isWhitespace then
        if acc.isEmpty then pySplitWSAux rest []
        else acc.reverse :: pySplitWSAux rest []
      else pySplitWSAux rest (c :: acc)

/-- Python `s.split()` with no argument: split on every run of
whitespace, discarding empty tokens. -/
def pySplitWS (s : List Char) : List (List Char) := pySplitWSAux s []

/-- Worker of `pySplitSep`. -/
def pySplitSepAux (sep : Char) : List Char → List Char → List (List Char)
  | [], acc => [acc.reverse]
  | c :: rest, acc =>
      if c = sep then acc.reverse :: pySplitSepAux sep rest []
      else pySplitSepAux sep rest (c :: acc)

/-- Python `s.split(sep)`: split at every occurrence of `sep`, keeping
empty tokens. -/
def pySplitSep (sep : Char) (s : List Char) : List (List Char) := pySplitSepAux sep s []

/-- Python `s.strip()`: drop whitespace from both ends. -/
def pyStrip (s : List Char) : List Char :=
  ((s.dropWhile Char.isWhitespace).reverse.dropWhile Char.isWhitespace).reverse

/-- Python `s.strip('"')` as applied to field values in
`from_lineprotocol` (`influx/model.py` line 157). -/
def pyStripQuotes (s : List Char) : List Char :=
  ((s.dropWhile (fun c => c = '"')).reverse.dropWhile (fun c => c = '"')).reverse

/-- Parse a comma-separated key-value segment: each entry is split at its
first `=` (`tag_pair.split("=", 1)`, `field_pair.split("=", 1)` in
`influx/model.py` lines 128-133); a missing `=` is a `ValueError`. -/
def readKeyValues (s : List Char) : Option (List (List Char × List Char)) :=
  (pySplitSep ',' s).mapM (pySplitFirst '=')

/-- `InfluxDBPoint.to_lineprotocol` (`influx/model.py` lines 163-199)
specialised to the dataclass fields of `UsageMeasurement`: the tags
`location_id` and `project_name` (field order of the dataclass), the
field `value`, and the timestamp serialised to integer nanoseconds
(`int(value.timestamp() * 1e9)`; the float detour perturbs at most a few
hundred nanoseconds, which disappears again at the microsecond resolution
of `datetime`, so the model serialises the exact value `1000 * timestamp`). -/
def to_lineprotocol (m : UsageMeasurement) : List Char :=
  let tag_str := ("location_id=".data ++ pyStrInt m.location_id) ++
    ',' :: ("project_name=".data ++ m.project_name.data)
  let field_str := "value=".data ++ pyStrFloat m.value
  let timestamp_str := pyStrInt (1000 * m.timestamp)
  (m.measurement.data ++ ',' :: tag_str) ++ ' ' :: (field_str ++ ' ' :: timestamp_str)

/-- The body of `from_lineprotocol` after the line has been split into
its three segments (`influx/model.py` lines 126-161): split off the
measurement name at the first comma, parse tag and field pairs into one
dict (tags first, fields second, later keys overwriting earlier ones),
deserialise the timestamp (`datetime.fromtimestamp(int(s) / 1e9)`, i.e.
nanoseconds rounded half-to-even to microseconds), then extract
`location_id`, `project_name` and `value` (field values are unquoted,
tag values are not). -/
def decodeSegments (metric : Metric)
    (measurement_and_tag field_set timestamp_chars : List Char) :
    Except DecodeError UsageMeasurement :=
  match pySplitFirst ',' measurement_and_tag with
  | none => .error .valueError
  | some (measurement_name, tag_set) =>
      match readKeyValues tag_set, readKeyValues field_set with
      | some tag_pairs, some field_pairs =>
          match pyParseInt timestamp_chars with
          | none => .error .valueError
          | some ns =>
              match List.lookup "location_id".data
                  ((tag_pairs ++ field_pairs).foldl (fun d p => pyDictSet d p.1 p.2) []) with
              | none => .error .keyError
              | some loc_chars =>
                  match pyParseInt loc_chars with
                  | none => .error .valueError
                  | some loc =>
                      match List.lookup "project_name".data
                          ((tag_pairs ++ field_pairs).foldl (fun d p => pyDictSet d p.1 p.2) []) with
                      | none => .error .keyError
                      | some pn_chars =>
                          match List.lookup "value".data
                              ((tag_pairs ++ field_pairs).foldl (fun d p => pyDictSet d p.1 p.2) []) with
                          | none => .error .keyError
                          | some v_chars =>
                              match pyParseFloat (pyStripQuotes v_chars) with
                              | none => .error .valueError
                              | some v =>
                                  .ok { measurement := String.mk measurement_name,
                                        timestamp := roundHalfEven ((ns : ℚ) / 1000),
                                        location_id := loc,
                                        project_name := String.mk pn_chars,
                                        value := v, metric := metric }
      | _, _ => .error .valueError

/-- `InfluxDBPoint.from_lineprotocol` (`influx/model.py` lines 100-161)
specialised to `UsageMeasurement`, called on the class whose metric is
`metric`.  The raw line is stripped and split on whitespace
(`influx_line.strip().split()`); anything but exactly three segments is
a `ValueError` (the tuple unpacking on line 125). -/
def from_lineprotocol (metric : Metric) (influx_line : List Char) :
    Except DecodeError UsageMeasurement :=
  match pySplitWS (pyStrip influx_line) with
  | [measurement_and_tag, field_set, timestamp_chars] =>
      decodeSegments metric measurement_and_tag field_set timestamp_chars
  | _ => .error .valueError

/-! ### Theorems about the billing engine -/

/-- `calculate_credits` never returns a negative amount: the `.ok` branch
is guarded by the `credits < 0` check of `billing.py` lines 40-44. -/
theorem calculate_credits_nonneg (prec : ℕ) (m1 m2 : UsageMeasurement) (q : ℚ)
    (h : calculate_credits prec m1 m2 = .ok q) : 0 ≤ q := by
  unfold calculate_credits at h
  rcases hcalc : TotalUsageMetric.calculate_credits prec (newerOf m1 m2) (olderOf m1 m2) with
    e | credits
  · rw [hcalc] at h; cases h
  · rw [hcalc] at h
    by_cases hneg : credits < 0
    · simp [hneg] at h
    · simp [hneg] at h
      exact h ▸ not_lt.mp hneg

/-- C1: a measurement whose timestamp is not newer than the stored
last-billed timestamp of its metric is dropped before any mutation
(`tasks.py` lines 253-258): `update_credits` returns without saving,
without touching the in-memory group, without a history record and
without a notification. -/
theorem stale_measurement_is_noop (prec : ℕ) (group : GroupState)
    (current_measurement : UsageMeasurement) (store : List (ℤ × ℚ)) (c : ℚ) (ts : ℤ)
    (hc : group.credits_used = some c)
    (hl : List.lookup current_measurement.measurement group.credits_timestamps = some ts)
    (hle : current_measurement.timestamp ≤ ts) :
    update_credits prec group current_measurement store =
      .ok { state := group, saved := false, history := none, notification := false } := by
  unfold update_credits
  simp [hc, hl, hle]

/-- C6: when no last-billed timestamp is stored for the measurement's
metric (and the state is not in the inconsistent configuration of C7),
`update_credits` initialises a missing `credits_used` with 0, stores the
current measurement's timestamp for the metric, saves, and stops without
billing and without a history record (`tasks.py` lines 214-247).  For the
first-ever measurement (`credits_used` unset, empty timestamp map) the
initialisation branch applies and `credits_used` becomes 0. -/
theorem first_timestamp_initialises (prec : ℕ) (group : GroupState)
    (current_measurement : UsageMeasurement) (store : List (ℤ × ℚ))
    (hl : List.lookup current_measurement.measurement group.credits_timestamps = none)
    (hok : (∃ c, group.credits_used = some c) ∨ group.credits_timestamps = []) :
    update_credits prec group current_measurement store =
      .ok { state :=
              { group with
                  credits_used := some (group.credits_used.getD 0),
                  credits_timestamps :=
                    pyDictSet group.credits_timestamps current_measurement.measurement
                      current_measurement.timestamp },
            saved := true, history := none, notification := false } := by
  obtain ⟨nm, gr, cu, cts⟩ := group
  rcases hok with ⟨c, hc⟩ | hts
  · simp only at hc
    subst hc
    unfold update_credits
    simp [hl]
  · simp only at hts
    subst hts
    rcases cu with _ | c
    · unfold update_credits
      simp
    · unfold update_credits
      simp

/-- C7: a fetched state with `credits_used` unset but a non-empty
last-billed timestamp map makes `update_credits` raise
`DenbiCreditsUsedMissing` before any mutation (`tasks.py` lines 214-222);
the worker catches it at the loop boundary, bumps the exception counter,
leaves the stored state untouched and continues with the remaining queue
items (`tasks.py` lines 71-100). -/
theorem credits_used_missing_counted_and_loop_continues (prec : ℕ) (group : GroupState)
    (current_measurement : UsageMeasurement) (store : List (ℤ × ℚ))
    (hn : group.credits_used = none) (ht : group.credits_timestamps ≠ []) :
    update_credits prec group current_measurement store = .error .denbiCreditsUsedMissing ∧
    runMeasurement prec group current_measurement store = group ∧
    ∀ (rest : List UsageMeasurement) (cnt : ℕ),
      workerLoop prec store (group, cnt) (current_measurement :: rest) =
        workerLoop prec store (group, cnt + 1) rest := by
  have herr : update_credits prec group current_measurement store =
      .error .denbiCreditsUsedMissing := by
    unfold update_credits
    simp [hn, ht]
  refine ⟨herr, ?_, ?_⟩
  · unfold runMeasurement
    rw [herr]
  · intro rest cnt
    unfold workerLoop
    rw [List.foldl_cons]
    unfold workerStep
    rw [herr]

/-- C10: when the stored last-billed timestamp has no value in the store
and the queried window is completely empty, `update_credits` hits
`list(project_measurements)[0]` on an empty dict (`tasks.py` line 269)
and raises `IndexError`: no partial recovery happens, nothing is saved,
and the worker's generic handler counts the exception and moves on. -/
theorem empty_window_raises_index_error (prec : ℕ) (group : GroupState)
    (current_measurement : UsageMeasurement) (store : List (ℤ × ℚ)) (c : ℚ) (ts : ℤ)
    (hc : group.credits_used = some c)
    (hl : List.lookup current_measurement.measurement group.credits_timestamps = some ts)
    (hgt : ts < current_measurement.timestamp)
    (hw : previous_measurements store ts = []) :
    update_credits prec group current_measurement store = .error .indexError ∧
    runMeasurement prec group current_measurement store = group ∧
    ∀ (rest : List UsageMeasurement) (cnt : ℕ),
      workerLoop prec store (group, cnt) (current_measurement :: rest) =
        workerLoop prec store (group, cnt + 1) rest := by
  have hnle : ¬ current_measurement.timestamp ≤ ts := not_le.mpr hgt
  have herr : update_credits prec group current_measurement store = .error .indexError := by
    unfold update_credits
    simp [hc, hl, hnle, hw]
  refine ⟨herr, ?_, ?_⟩
  · unfold runMeasurement
    rw [herr]
  · intro rest cnt
    unfold workerLoop
    rw [List.foldl_cons]
    unfold workerStep
    rw [herr]

/-- C2 (failing input): stored last-billed timestamp 10, no value at 10 in
the store, queried window (all points with timestamp ≥ 10, descending)
`[(30, 5), (20, 3)]`.  The code takes `list(project_measurements)[0]`,
the head of the descending dict, i.e. the NEWEST timestamp 30 — not the
oldest one 20 that the claim (and the source's own log message,
`tasks.py` lines 274-284) promises — then saves and stops with
`credits_used` unchanged and no history record. -/
theorem missing_history_point_sets_newest_not_oldest :
    previous_measurements [(30, 5), (20, 3)] 10 = [(30, 5), (20, 3)] ∧
    update_credits 2
        { name := "proj", credits_granted := 200, credits_used := some 0,
          credits_timestamps := [("project_vcpu_usage", 10)] }
        { measurement := "project_vcpu_usage", timestamp := 40, location_id := 0,
          project_name := "proj", value := 7,
          metric := { name := "project_vcpu_usage", friendly_name := "cpu",
                      CREDITS_PER_VIRTUAL_HOUR := 1 } }
        [(30, 5), (20, 3)] =
      .ok { state :=
              { name := "proj", credits_granted := 200, credits_used := some 0,
                credits_timestamps := [("project_vcpu_usage", 30)] },
            saved := true, history := none, notification := false } ∧
    (30 : ℤ) ≠ 20 := by
  refine ⟨by decide, by decide, by decide⟩

/-- C3: for two measurements of the same (total-usage) metric,
`calculate_credits` sorts them by time, computes
`(newer.value - older.value) * CREDITS_PER_VIRTUAL_HOUR` quantized
half-to-even to the configured precision, and raises
`CalculationResultError` exactly when that amount is negative
(`billing.py` lines 15-45, `base_models.py` lines 188-210; together with
`calculate_credits_nonneg` the returned amount is never negative). -/
theorem calculate_credits_formula_and_sign (prec : ℕ) (m1 m2 : UsageMeasurement)
    (hm : m1.metric = m2.metric) :
    calculate_credits prec m1 m2 =
      if quantize prec (((newerOf m1 m2).value - (olderOf m1 m2).value) *
          (newerOf m1 m2).metric.CREDITS_PER_VIRTUAL_HOUR) < 0 then
        .error .calculationResultError
      else
        .ok (quantize prec (((newerOf m1 m2).value - (olderOf m1 m2).value) *
          (newerOf m1 m2).metric.CREDITS_PER_VIRTUAL_HOUR)) := by
  have hmn : (newerOf m1 m2).metric = (olderOf m1 m2).metric := by
    unfold newerOf olderOf
    split <;> simp [hm]
  have hts : ¬ (newerOf m1 m2).timestamp < (olderOf m1 m2).timestamp := by
    unfold newerOf olderOf
    split <;> omega
  unfold calculate_credits TotalUsageMetric.calculate_credits
  simp [hmn, hts]

/-- C5: in a run of `update_credits` that did not raise, the
`HalfOfCreditsLeft` notification is raised if and only if the run
committed a billing transition (wrote a history record) in which
`credits_used` crossed half of `credits_granted`: before the transition
it was ≤ half, afterwards it is > half (`tasks.py` lines 327-332).  In
particular a transition that starts strictly above half never raises the
notification. -/
theorem half_notification_iff (prec : ℕ) (group : GroupState)
    (current_measurement : UsageMeasurement) (store : List (ℤ × ℚ))
    (r : UpdateOutcome) (prev : ℚ)
    (h : update_credits prec group current_measurement store = .ok r)
    (hp : group.credits_used = some prev) :
    (r.notification = true ↔
      (r.history ≠ none ∧ prev ≤ (group.credits_granted : ℚ) / 2 ∧
        (group.credits_granted : ℚ) / 2 < r.state.credits_used.getD 0)) ∧
    ((group.credits_granted : ℚ) / 2 < prev → r.notification = false) := by
  unfold update_credits at h
  simp only [hp, reduceCtorEq, if_false, false_and, if_neg] at h
  split at h
  · cases h
    simp
  · split at h
    · cases h
      simp
    · split at h
      · split at h
        · cases h
        · cases h
          simp
      · split at h
        · cases h
          simp
        · split at h
          · cases h
          · split at h
            · cases h
              simp
            · cases h
              constructor
              · simp [decide_eq_true_iff]
              · intro hlt
                simp only [UpdateOutcome.notification]
                rw [decide_eq_false_iff_not]
                rintro ⟨h1, -⟩
                exact absurd h1 (not_le.mpr hlt)

/-- Any non-raising run of `update_credits` can only keep or increase the
in-memory `credits_used` (given it was set): the only path that changes
it adds the non-negative `credits_to_bill`. -/
theorem update_credits_used_mono (prec : ℕ) (group : GroupState)
    (current_measurement : UsageMeasurement) (store : List (ℤ × ℚ))
    (r : UpdateOutcome) (c : ℚ)
    (h : update_credits prec group current_measurement store = .ok r)
    (hc : group.credits_used = some c) :
    ∃ c', r.state.credits_used = some c' ∧ c ≤ c' := by
  unfold update_credits at h
  simp only [hc, reduceCtorEq, if_false, false_and, if_neg] at h
  split at h
  · cases h
    exact ⟨c, rfl, le_refl c⟩
  · split at h
    · cases h
      exact ⟨c, hc, le_refl c⟩
    · split at h
      · split at h
        · cases h
        · cases h
          exact ⟨c, rfl, le_refl c⟩
      · split at h
        · cases h
          exact ⟨c, hc, le_refl c⟩
        · rename_i hcalc
          split at h
          · cases h
          · rename_i q hq
            have hq0 : 0 ≤ q := calculate_credits_nonneg prec _ _ q hq
            split at h
            · cases h
              exact ⟨c + q, rfl, le_add_of_nonneg_right hq0⟩
            · cases h
              exact ⟨c + q, rfl, le_add_of_nonneg_right hq0⟩

/-- The persisted state transition of one task keeps `credits_used`
non-decreasing, whatever the measurement and whatever the store returns. -/
theorem runMeasurement_usedMono (prec : ℕ) (g : GroupState) (m : UsageMeasurement)
    (store : List (ℤ × ℚ)) : usedMono g (runMeasurement prec g m store) := by
  intro c hc
  unfold runMeasurement
  rcases hres : update_credits prec g m store with e | r
  · exact ⟨c, hc, le_refl c⟩
  · rcases hsv : r.saved with _ | _
    · simp [hsv]
      exact ⟨c, hc, le_refl c⟩
    · simp [hsv]
      exact update_credits_used_mono prec g m store r c hres hc

/-- Folding a step function into `List.scanl` yields a chain of the step
relation. -/
theorem chain'_scanl {α β : Type} (R : α → α → Prop) (f : α → β → α)
    (hstep : ∀ a b, R a (f a b)) :
    ∀ (l : List β) (a : α), List.Chain' R (List.scanl f a l) := by
  intro l
  induction l with
  | nil => intro a; simp
  | cons b l ih =>
      intro a
      rw [List.scanl_cons, List.singleton_append, List.chain'_cons']
      refine ⟨?_, ih (f a b)⟩
      intro y hy
      cases l <;> simp [List.scanl] at hy <;> rw [← hy] <;> exact hstep a b

/-- C4: processing a sequence of measurements of one project and metric
sequentially (each task with the store contents at its time), with
strictly increasing timestamps and non-decreasing values, the stored
`credits_used` is non-decreasing after each processed measurement once it
is initialised.  (The proof uses `runMeasurement_usedMono`, which shows
the hypotheses are not even needed: negative computed credits raise
`CalculationResultError` before any save.) -/
theorem credits_used_monotonic (prec : ℕ) (g : GroupState)
    (tasks : List (UsageMeasurement × List (ℤ × ℚ)))
    (hts : List.Chain' (fun a b => a.1.timestamp < b.1.timestamp) tasks)
    (hvs : List.Chain' (fun a b => a.1.value ≤ b.1.value) tasks) :
    List.Chain' usedMono (List.scanl (fun s t => runMeasurement prec s t.1 t.2) g tasks) :=
  chain'_scanl usedMono _ (fun a b => runMeasurement_usedMono prec a b.1 b.2) tasks g

theorem digitChar_isDigit {d : ℕ} (hd : d < 10) : (digitChar d).isDigit = true := by
  interval_cases d <;> decide

theorem charToDigit_digitChar {d : ℕ} (hd : d < 10) : charToDigit (digitChar d) = d := by
  interval_cases d <;> decide

theorem foldl_digits (L : List ℕ) (a : ℕ) (hL : ∀ d ∈ L, d < 10) :
    List.foldl (fun x c => 10 * x + charToDigit c) a ((L.map digitChar).reverse) =
      a * 10 ^ L.length + Nat.ofDigits 10 L := by
  induction L generalizing a with
  | nil => simp [Nat.ofDigits]
  | cons d L ih =>
      have hd : d < 10 := hL d (List.mem_cons_self d L)
      have hL' : ∀ x ∈ L, x < 10 := fun x hx => hL x (List.mem_cons_of_mem d hx)
      rw [List.map_cons, List.reverse_cons, List.foldl_append, ih a hL']
      simp [Nat.ofDigits_cons, charToDigit_digitChar hd]
      ring

theorem natVal_pyStrNat (n : ℕ) : natVal (pyStrNat n) = n := by
  unfold pyStrNat natVal
  by_cases hn : n = 0
  · simp [hn]
    decide
  · rw [if_neg hn, foldl_digits _ 0 (fun d hd => Nat.digits_lt_base (by norm_num) hd)]
    simp [Nat.ofDigits_digits]

theorem pyStrNat_all_digits (n : ℕ) : ∀ c ∈ pyStrNat n, c.isDigit = true := by
  unfold pyStrNat
  by_cases hn : n = 0
  · simp [hn]
  · rw [if_neg hn]
    intro c hc
    rw [List.mem_reverse] at hc
    obtain ⟨d, hd, rfl⟩ := List.mem_map.mp hc
    exact digitChar_isDigit (Nat.digits_lt_base (by norm_num) hd)

theorem pyStrNat_ne_nil (n : ℕ) : pyStrNat n ≠ [] := by
  unfold pyStrNat
  by_cases hn : n = 0
  · simp [hn]
  · rw [if_neg hn]
    simp [Nat.digits_ne_nil_iff_ne_zero.mpr hn]

theorem pyParseNat_pyStrNat (n : ℕ) : pyParseNat (pyStrNat n) = some n := by
  unfold pyParseNat
  rw [if_pos ⟨pyStrNat_ne_nil n, List.all_eq_true.mpr (pyStrNat_all_digits n)⟩,
    natVal_pyStrNat]

theorem pyStrNat_head_digit (n : ℕ) (c : Char) (h : (pyStrNat n).head? = some c) :
    c.isDigit = true :=
  pyStrNat_all_digits n c (List.mem_of_mem_head? h)

theorem isDigit_ne_minus {c : Char} (h : c.isDigit = true) : c ≠ '-' := by
  intro heq
  subst heq
  exact absurd h (by decide)

theorem isDigit_ne_plus {c : Char} (h : c.isDigit = true) : c ≠ '+' := by
  intro heq
  subst heq
  exact absurd h (by decide)

theorem pyParseInt_pyStrInt (i : ℤ) : pyParseInt (pyStrInt i) = some i := by
  unfold pyParseInt pyStrInt
  by_cases hi : i < 0
  · rw [if_pos hi]
    simp only [List.singleton_append, List.head?_cons, List.tail_cons, reduceIte]
    rw [pyParseNat_pyStrNat]
    simp only [Option.map_some', Option.some.injEq]
    omega
  · rw [if_neg hi, List.nil_append]
    obtain ⟨c, hc⟩ : ∃ c, (pyStrNat i.natAbs).head? = some c := by
      cases hh : (pyStrNat i.natAbs).head? with
      | none => exact absurd (List.head?_eq_none_iff.mp hh) (pyStrNat_ne_nil _)
      | some c => exact ⟨c, rfl⟩
    have hdig := pyStrNat_head_digit _ _ hc
    rw [if_neg (by rw [hc]; simp [isDigit_ne_minus hdig]),
      if_neg (by rw [hc]; simp [isDigit_ne_plus hdig]), pyParseNat_pyStrNat]
    simp only [Option.map_some', Option.some.injEq]
    omega
theorem isDigit_ne_dot {c : Char} (h : c.isDigit = true) : c ≠ '.' := by
  intro heq
  subst heq
  exact absurd h (by decide)

theorem pySplitFirst_append (sep : Char) (K rest : List Char) (hK : ∀ c ∈ K, c ≠ sep) :
    pySplitFirst sep (K ++ sep :: rest) = some (K, rest) := by
  induction K with
  | nil => simp [pySplitFirst]
  | cons c K ih =>
      have hc : c ≠ sep := hK c (List.mem_cons_self _ _)
      have hK' : ∀ x ∈ K, x ≠ sep := fun x hx => hK x (List.mem_cons_of_mem _ hx)
      simp [pySplitFirst, hc, ih hK']

theorem ofDigits_replicate_zero (b m : ℕ) : Nat.ofDigits b (List.replicate m 0) = 0 := by
  induction m with
  | zero => simp [Nat.ofDigits]
  | succ m ih => simp [List.replicate, Nat.ofDigits_cons, ih]

theorem digits_len_le_of_lt_pow {n k : ℕ} (h : n < 10 ^ k) :
    (Nat.digits 10 n).length ≤ k := by
  rcases eq_or_ne n 0 with rfl | hn
  · simp
  · rw [Nat.digits_len 10 n (by norm_num) hn]
    have := Nat.log_lt_of_lt_pow hn h
    omega
theorem pyStrFloat_eq (q : ℚ) :
    pyStrFloat q =
      (if q < 0 then ['-'] else []) ++
        pyStrNat ((q * 10 ^ q.den).num.natAbs / 10 ^ q.den) ++
        '.' :: (((Nat.digits 10 ((q * 10 ^ q.den).num.natAbs % 10 ^ q.den) ++
            List.replicate
              (q.den - (Nat.digits 10 ((q * 10 ^ q.den).num.natAbs % 10 ^ q.den)).length)
              0).map digitChar).reverse) := rfl

theorem pyParseUFloat_parts (ip fp k : ℕ) (hfp : fp < 10 ^ k) :
    pyParseUFloat (pyStrNat ip ++ '.' ::
      (((Nat.digits 10 fp ++ List.replicate (k - (Nat.digits 10 fp).length) 0).map
        digitChar).reverse)) =
      some ((ip : ℚ) + (fp : ℚ) / 10 ^ k) := by
  have hlen_le : (Nat.digits 10 fp).length ≤ k := digits_len_le_of_lt_pow hfp
  set D := Nat.digits 10 fp ++ List.replicate (k - (Nat.digits 10 fp).length) 0 with hD
  have hDlen : D.length = k := by
    rw [hD, List.length_append, List.length_replicate]
    omega
  have hDlt : ∀ d ∈ D, d < 10 := by
    intro d hd
    rw [hD, List.mem_append] at hd
    rcases hd with hd | hd
    · exact Nat.digits_lt_base (by norm_num) hd
    · rw [List.eq_of_mem_replicate hd]
      norm_num
  have hfrac_digits : ∀ c ∈ (D.map digitChar).reverse, c.isDigit = true := by
    intro c hc
    rw [List.mem_reverse] at hc
    obtain ⟨d, hd, rfl⟩ := List.mem_map.mp hc
    exact digitChar_isDigit (hDlt d hd)
  have hip_digits := pyStrNat_all_digits ip
  have hsplit : pySplitFirst '.'
      (pyStrNat ip ++ '.' :: (D.map digitChar).reverse) =
      some (pyStrNat ip, (D.map digitChar).reverse) :=
    pySplitFirst_append '.' _ _ (fun c hc => isDigit_ne_dot (hip_digits c hc))
  unfold pyParseUFloat
  rw [hsplit]
  simp only []
  rw [if_pos ⟨List.all_eq_true.mpr hip_digits, List.all_eq_true.mpr hfrac_digits,
    fun h => (pyStrNat_ne_nil ip) h.1⟩]
  have hnatval : natVal ((D.map digitChar).reverse) = fp := by
    unfold natVal
    rw [foldl_digits D 0 hDlt, hD, Nat.ofDigits_append, Nat.ofDigits_digits,
      ofDigits_replicate_zero]
    ring
  rw [natVal_pyStrNat, hnatval, List.length_reverse, List.length_map, hDlen]
theorem pyParseFloat_neg_cons (l : List Char) :
    pyParseFloat ('-' :: l) = (pyParseUFloat l).map (fun q : ℚ => -q) := by
  unfold pyParseFloat
  simp

theorem pyParseFloat_of_digit_head (l : List Char) (c : Char) (hc : l.head? = some c)
    (hdig : c.isDigit = true) : pyParseFloat l = pyParseUFloat l := by
  unfold pyParseFloat
  rw [if_neg (by rw [hc]; simp [isDigit_ne_minus hdig]),
    if_neg (by rw [hc]; simp [isDigit_ne_plus hdig])]

theorem pyParseFloat_pyStrFloat (q : ℚ) (hq : (q * 10 ^ q.den).den = 1) :
    pyParseFloat (pyStrFloat q) = some q := by
  have h10 : (0 : ℚ) < 10 ^ q.den := by positivity
  have hqM : (((q * 10 ^ q.den).num : ℤ) : ℚ) = q * 10 ^ q.den := by
    conv_rhs => rw [← Rat.num_div_den (q * 10 ^ q.den)]
    rw [hq]
    norm_num
  set M := (q * 10 ^ q.den).num with hM
  have hfp : M.natAbs % 10 ^ q.den < 10 ^ q.den := Nat.mod_lt _ (by positivity)
  have hvald : ((M.natAbs / 10 ^ q.den : ℕ) : ℚ) + ((M.natAbs % 10 ^ q.den : ℕ) : ℚ) / 10 ^ q.den =
      (M.natAbs : ℚ) / 10 ^ q.den := by
    have hsplit : 10 ^ q.den * (M.natAbs / 10 ^ q.den) + M.natAbs % 10 ^ q.den = M.natAbs :=
      Nat.div_add_mod _ _
    have h1 : ((M.natAbs : ℕ) : ℚ) =
        10 ^ q.den * ((M.natAbs / 10 ^ q.den : ℕ) : ℚ) + ((M.natAbs % 10 ^ q.den : ℕ) : ℚ) := by
      exact_mod_cast congrArg (fun n : ℕ => (n : ℚ)) hsplit.symm
    rw [eq_div_iff (ne_of_gt h10), add_mul, div_mul_cancel₀ _ (ne_of_gt h10), h1]
    ring
  by_cases hneg : q < 0
  · have hMneg : ((M : ℤ) : ℚ) < 0 := by
      rw [hqM]
      exact mul_neg_of_neg_of_pos hneg h10
    have habs : ((M.natAbs : ℕ) : ℚ) = -((M : ℤ) : ℚ) := by
      rw [Nat.cast_natAbs, Int.cast_abs]
      exact abs_of_neg hMneg
    rw [pyStrFloat_eq q, if_pos hneg, List.singleton_append, List.cons_append,
      pyParseFloat_neg_cons, pyParseUFloat_parts _ _ _ hfp, Option.map_some']
    congr 1
    rw [hvald, habs, hqM]
    field_simp
  · have hMpos : (0 : ℚ) ≤ ((M : ℤ) : ℚ) := by
      rw [hqM]
      exact mul_nonneg (not_lt.mp hneg) (le_of_lt h10)
    have habs : ((M.natAbs : ℕ) : ℚ) = ((M : ℤ) : ℚ) := by
      rw [Nat.cast_natAbs, Int.cast_abs]
      exact abs_of_nonneg hMpos
    rw [pyStrFloat_eq q, if_neg hneg, List.nil_append]
    obtain ⟨c, hc⟩ : ∃ c, (pyStrNat ((q * 10 ^ q.den).num.natAbs / 10 ^ q.den)).head? = some c := by
      cases hh : (pyStrNat ((q * 10 ^ q.den).num.natAbs / 10 ^ q.den)).head? with
      | none => exact absurd (List.head?_eq_none_iff.mp hh) (pyStrNat_ne_nil _)
      | some c => exact ⟨c, rfl⟩
    have hdig := pyStrNat_head_digit _ _ hc
    rw [pyParseFloat_of_digit_head _ c
      (by rw [List.head?_append_of_ne_nil _ (pyStrNat_ne_nil _)]; exact hc) hdig,
      pyParseUFloat_parts _ _ _ hfp]
    congr 1
    rw [hvald, habs, hqM]
    field_simp
theorem pySplitWSAux_token (T : List Char) (rest acc : List Char)
    (hT : ∀ c ∈ T, c.isWhitespace = false) :
    pySplitWSAux (T ++ rest) acc = pySplitWSAux rest (T.reverse ++ acc) := by
  induction T generalizing acc with
  | nil => simp
  | cons c T ih =>
      have hc : c.isWhitespace = false := hT c (List.mem_cons_self _ _)
      have hT' : ∀ x ∈ T, x.isWhitespace = false :=
        fun x hx => hT x (List.mem_cons_of_mem _ hx)
      rw [List.cons_append]
      simp only [pySplitWSAux, hc, Bool.false_eq_true, if_false]
      rw [ih _ hT', List.reverse_cons, List.append_assoc, List.singleton_append]

theorem pySplitWSAux_space (rest acc : List Char) :
    pySplitWSAux (' ' :: rest) acc =
      if acc.isEmpty then pySplitWSAux rest [] else acc.reverse :: pySplitWSAux rest [] := by
  simp only [pySplitWSAux]
  norm_num
  exact fun h => absurd h (by decide)

theorem pySplitWS_three (A B C : List Char)
    (hA : ∀ c ∈ A, c.isWhitespace = false) (hB : ∀ c ∈ B, c.isWhitespace = false)
    (hC : ∀ c ∈ C, c.isWhitespace = false)
    (hA0 : A ≠ []) (hB0 : B ≠ []) (hC0 : C ≠ []) :
    pySplitWS (A ++ ' ' :: (B ++ ' ' :: C)) = [A, B, C] := by
  unfold pySplitWS
  rw [pySplitWSAux_token A _ _ hA, List.append_nil, pySplitWSAux_space,
    if_neg (by simp [hA0]), List.reverse_reverse,
    pySplitWSAux_token B _ _ hB, List.append_nil, pySplitWSAux_space,
    if_neg (by simp [hB0]), List.reverse_reverse,
    ← List.append_nil C, pySplitWSAux_token C _ _ hC]
  simp only [pySplitWSAux]
  rw [if_neg (by simp [hC0])]
  simp

theorem pySplitSepAux_token (sep : Char) (T rest acc : List Char)
    (hT : ∀ c ∈ T, c ≠ sep) :
    pySplitSepAux sep (T ++ rest) acc = pySplitSepAux sep rest (T.reverse ++ acc) := by
  induction T generalizing acc with
  | nil => simp
  | cons c T ih =>
      have hc : c ≠ sep := hT c (List.mem_cons_self _ _)
      have hT' : ∀ x ∈ T, x ≠ sep := fun x hx => hT x (List.mem_cons_of_mem _ hx)
      rw [List.cons_append]
      simp only [pySplitSepAux]
      rw [if_neg hc, ih _ hT', List.reverse_cons, List.append_assoc, List.singleton_append]

theorem pySplitSep_pair (sep : Char) (T1 T2 : List Char)
    (h1 : ∀ c ∈ T1, c ≠ sep) (h2 : ∀ c ∈ T2, c ≠ sep) :
    pySplitSep sep (T1 ++ sep :: T2) = [T1, T2] := by
  unfold pySplitSep
  rw [pySplitSepAux_token sep T1 _ _ h1, List.append_nil]
  simp only [pySplitSepAux]
  rw [if_pos trivial, List.reverse_reverse, ← List.append_nil T2,
    pySplitSepAux_token sep T2 _ _ h2]
  simp only [pySplitSepAux]
  simp

theorem pySplitSep_single (sep : Char) (T : List Char) (h : ∀ c ∈ T, c ≠ sep) :
    pySplitSep sep T = [T] := by
  unfold pySplitSep
  rw [← List.append_nil T, pySplitSepAux_token sep T _ _ h]
  simp only [pySplitSepAux]
  simp

theorem dropWhile_eq_self_of_head {p : Char → Bool} (l : List Char)
    (h : ∀ c, l.head? = some c → p c = false) : l.dropWhile p = l := by
  cases l with
  | nil => rfl
  | cons a as =>
      rw [List.dropWhile_cons, h a rfl]
      norm_num

theorem pyStrip_eq_self (l : List Char)
    (h1 : ∀ c, l.head? = some c → c.isWhitespace = false)
    (h2 : ∀ c, l.getLast? = some c → c.isWhitespace = false) : pyStrip l = l := by
  unfold pyStrip
  rw [dropWhile_eq_self_of_head l h1,
    dropWhile_eq_self_of_head l.reverse (fun c hc => h2 c (by rw [← List.head?_reverse]; exact hc)),
    List.reverse_reverse]

theorem not_ws_of_isDigit {c : Char} (h : c.isDigit = true) : c.isWhitespace = false := by
  rcases Bool.eq_false_or_eq_true c.isWhitespace with hw | hw
  · exfalso
    have hw' : (c = ' ' || c = '\t' || c = '\r' || c = '\n') = true := hw
    simp only [Bool.or_eq_true, decide_eq_true_eq] at hw'
    rcases hw' with ((rfl | rfl) | rfl) | rfl <;> exact absurd h (by decide)
  · exact hw

theorem ne_of_isDigit {c x : Char} (h : c.isDigit = true) (hx : x.isDigit = false) : c ≠ x := by
  intro heq
  subst heq
  rw [h] at hx
  cases hx

theorem pyStrInt_chars (i : ℤ) : ∀ c ∈ pyStrInt i, c.isDigit = true ∨ c = '-' := by
  unfold pyStrInt
  intro c hc
  rw [List.mem_append] at hc
  rcases hc with hc | hc
  · by_cases hi : i < 0
    · rw [if_pos hi] at hc
      right
      simpa using hc
    · rw [if_neg hi] at hc
      simp at hc
  · exact Or.inl (pyStrNat_all_digits _ c hc)

theorem mem_fracChars {c : Char} {fp pad : ℕ}
    (hc : c ∈ ((Nat.digits 10 fp ++ List.replicate pad 0).map digitChar).reverse) :
    c.isDigit = true := by
  rw [List.mem_reverse] at hc
  obtain ⟨d, hd, rfl⟩ := List.mem_map.mp hc
  rw [List.mem_append] at hd
  rcases hd with hd | hd
  · exact digitChar_isDigit (Nat.digits_lt_base (by norm_num) hd)
  · rw [List.eq_of_mem_replicate hd]
    decide

theorem pyStrFloat_chars (q : ℚ) :
    ∀ c ∈ pyStrFloat q, c.isDigit = true ∨ c = '-' ∨ c = '.' := by
  rw [pyStrFloat_eq]
  intro c hc
  rw [List.mem_append, List.mem_append] at hc
  rcases hc with (hc | hc) | hc
  · by_cases hq : q < 0
    · rw [if_pos hq] at hc
      right; left
      simpa using hc
    · rw [if_neg hq] at hc
      simp at hc
  · exact Or.inl (pyStrNat_all_digits _ c hc)
  · rcases List.mem_cons.mp hc with rfl | hc
    · right; right; rfl
    · exact Or.inl (mem_fracChars hc)

theorem pyStrInt_ne_nil (i : ℤ) : pyStrInt i ≠ [] := by
  unfold pyStrInt
  intro h
  rcases List.append_eq_nil.mp h with ⟨-, h2⟩
  exact pyStrNat_ne_nil _ h2


theorem pyStrInt_not_ws {i : ℤ} : ∀ c ∈ pyStrInt i, c.isWhitespace = false := by
  intro c hc
  rcases pyStrInt_chars i c hc with h | rfl
  · exact not_ws_of_isDigit h
  · decide

theorem pyStrInt_ne_comma {i : ℤ} : ∀ c ∈ pyStrInt i, c ≠ ',' := by
  intro c hc
  rcases pyStrInt_chars i c hc with h | rfl
  · exact ne_of_isDigit h (by decide)
  · decide

theorem pyStrFloat_not_ws {q : ℚ} : ∀ c ∈ pyStrFloat q, c.isWhitespace = false := by
  intro c hc
  rcases pyStrFloat_chars q c hc with h | rfl | rfl
  · exact not_ws_of_isDigit h
  · decide
  · decide

theorem pyStrFloat_ne_comma {q : ℚ} : ∀ c ∈ pyStrFloat q, c ≠ ',' := by
  intro c hc
  rcases pyStrFloat_chars q c hc with h | rfl | rfl
  · exact ne_of_isDigit h (by decide)
  · decide
  · decide

theorem pyStrFloat_ne_quote {q : ℚ} : ∀ c ∈ pyStrFloat q, (c = '"') = False := by
  intro c hc
  simp only [eq_iff_iff, iff_false]
  rcases pyStrFloat_chars q c hc with h | rfl | rfl
  · exact ne_of_isDigit h (by decide)
  · decide
  · decide

theorem pyStripQuotes_pyStrFloat (q : ℚ) : pyStripQuotes (pyStrFloat q) = pyStrFloat q := by
  unfold pyStripQuotes
  have h1 : ∀ l : List Char, (∀ c ∈ l, (decide (c = '"')) = false) →
      l.dropWhile (fun c => decide (c = '"')) = l := by
    intro l hl
    exact dropWhile_eq_self_of_head l (fun c hc => hl c (List.mem_of_mem_head? hc))
  have hall : ∀ c ∈ pyStrFloat q, (decide (c = '"')) = false := by
    intro c hc
    simpa using pyStrFloat_ne_quote c hc
  rw [h1 _ hall, h1 _ (fun c hc => hall c (List.mem_reverse.mp hc)), List.reverse_reverse]

theorem pyStrip_three (A B C : List Char) (hA0 : A ≠ []) (hC0 : C ≠ [])
    (hAh : ∀ c, A.head? = some c → c.isWhitespace = false)
    (hCl : ∀ c ∈ C, c.isWhitespace = false) :
    pyStrip (A ++ ' ' :: (B ++ ' ' :: C)) = A ++ ' ' :: (B ++ ' ' :: C) := by
  apply pyStrip_eq_self
  · intro c hc
    rw [List.head?_append_of_ne_nil _ hA0] at hc
    exact hAh c hc
  · intro c hc
    rw [List.getLast?_append_cons] at hc
    rw [show (' ' :: (B ++ ' ' :: C)) = (' ' :: B) ++ ' ' :: C from by simp] at hc
    rw [List.getLast?_append_cons] at hc
    rw [show (' ' :: C) = [' '] ++ C from rfl] at hc
    rw [List.getLast?_append_of_ne_nil _ hC0] at hc
    have : c ∈ C := List.mem_of_mem_getLast? hc
    exact hCl c this

theorem splitFirst_measurement (K V : List Char) (hK : ∀ c ∈ K, c ≠ ',') :
    pySplitFirst ',' (K ++ ',' :: V) = some (K, V) :=
  pySplitFirst_append ',' K V hK

theorem splitFirst_locPair (V : List Char) :
    pySplitFirst '=' ("location_id=".data ++ V) = some ("location_id".data, V) := by
  rw [show ("location_id=".data ++ V) = ("location_id".data ++ '=' :: V) from rfl]
  exact pySplitFirst_append '=' _ _ (by decide)

theorem splitFirst_projPair (V : List Char) :
    pySplitFirst '=' ("project_name=".data ++ V) = some ("project_name".data, V) := by
  rw [show ("project_name=".data ++ V) = ("project_name".data ++ '=' :: V) from rfl]
  exact pySplitFirst_append '=' _ _ (by decide)

theorem splitFirst_valuePair (V : List Char) :
    pySplitFirst '=' ("value=".data ++ V) = some ("value".data, V) := by
  rw [show ("value=".data ++ V) = ("value".data ++ '=' :: V) from rfl]
  exact pySplitFirst_append '=' _ _ (by decide)

theorem readKeyValues_tags (I P : List Char)
    (hI : ∀ c ∈ I, c ≠ ',') (hP : ∀ c ∈ P, c ≠ ',') :
    readKeyValues (("location_id=".data ++ I) ++ ',' :: ("project_name=".data ++ P)) =
      some [("location_id".data, I), ("project_name".data, P)] := by
  unfold readKeyValues
  have hlit1 : ∀ c ∈ "location_id=".data, c ≠ ',' := by decide
  have hlit2 : ∀ c ∈ "project_name=".data, c ≠ ',' := by decide
  rw [pySplitSep_pair ',' _ _
    (by
      intro c hc
      rcases List.mem_append.mp hc with hc | hc
      · exact hlit1 c hc
      · exact hI c hc)
    (by
      intro c hc
      rcases List.mem_append.mp hc with hc | hc
      · exact hlit2 c hc
      · exact hP c hc)]
  simp [List.mapM.loop, pySplitFirst]

theorem readKeyValues_field (V : List Char) (hV : ∀ c ∈ V, c ≠ ',') :
    readKeyValues ("value=".data ++ V) = some [("value".data, V)] := by
  unfold readKeyValues
  have hlit : ∀ c ∈ "value=".data, c ≠ ',' := by decide
  rw [pySplitSep_single ','  _
    (by
      intro c hc
      rcases List.mem_append.mp hc with hc | hc
      · exact hlit c hc
      · exact hV c hc)]
  simp [List.mapM.loop, pySplitFirst]

theorem influxDict_eval (v1 v2 v3 : List Char) :
    ([("location_id".data, v1), ("project_name".data, v2)] ++ [("value".data, v3)]).foldl
      (fun d p => pyDictSet d p.1 p.2) ([] : List (List Char × List Char)) =
      [("location_id".data, v1), ("project_name".data, v2), ("value".data, v3)] := rfl

theorem influxDict_lookup_loc (v1 v2 v3 : List Char) :
    List.lookup "location_id".data
      [("location_id".data, v1), ("project_name".data, v2), ("value".data, v3)] = some v1 := rfl

theorem influxDict_lookup_proj (v1 v2 v3 : List Char) :
    List.lookup "project_name".data
      [("location_id".data, v1), ("project_name".data, v2), ("value".data, v3)] = some v2 := rfl

theorem influxDict_lookup_value (v1 v2 v3 : List Char) :
    List.lookup "value".data
      [("location_id".data, v1), ("project_name".data, v2), ("value".data, v3)] = some v3 := rfl

theorem ratFloor_eq_intFloor (x : ℚ) : Rat.floor x = ⌊x⌋ :=
  (Rat.floor_def' x).trans Rat.floor_def.symm

theorem roundHalfEven_intCast (z : ℤ) : roundHalfEven ((z : ℤ) : ℚ) = z := by
  unfold roundHalfEven
  rw [ratFloor_eq_intFloor, Int.floor_intCast]
  norm_num

theorem roundHalfEven_ns (t : ℤ) : roundHalfEven (((1000 * t : ℤ) : ℚ) / 1000) = t := by
  have h : (((1000 * t : ℤ) : ℚ)) / 1000 = ((t : ℤ) : ℚ) := by
    push_cast
    ring
  rw [h, roundHalfEven_intCast]


/-- C8: decoding the encoding round-trips.  For every measurement
representable in the wire format — measurement name and project name free
of whitespace and commas (the source escapes neither), and a value with a
finite decimal expansion (every finite Python float is one) —
`from_lineprotocol`, called on the measurement's own class, inverts
`to_lineprotocol` exactly.  Timestamps are microsecond-resolution
`datetime`s; the nanoseconds of the wire format are recovered without
loss ("up to nanosecond truncation"). -/
theorem from_to_lineprotocol_roundtrip (m : UsageMeasurement)
    (hmeas : ∀ c ∈ m.measurement.data, c.isWhitespace = false ∧ c ≠ ',')
    (hproj : ∀ c ∈ m.project_name.data, c.isWhitespace = false ∧ c ≠ ',')
    (hval : (m.value * 10 ^ m.value.den).den = 1) :
    from_lineprotocol m.metric (to_lineprotocol m) = .ok m := by
  have hshape : to_lineprotocol m =
      (m.measurement.data ++ ',' :: (("location_id=".data ++ pyStrInt m.location_id) ++
        ',' :: ("project_name=".data ++ m.project_name.data))) ++
      ' ' :: (("value=".data ++ pyStrFloat m.value) ++
        ' ' :: pyStrInt (1000 * m.timestamp)) := rfl
  have hlitloc : ∀ c ∈ "location_id=".data, c.isWhitespace = false := by decide
  have hlitproj : ∀ c ∈ "project_name=".data, c.isWhitespace = false := by decide
  have hlitval : ∀ c ∈ "value=".data, c.isWhitespace = false := by decide
  have hA_ws : ∀ c ∈ m.measurement.data ++ ',' :: (("location_id=".data ++
      pyStrInt m.location_id) ++ ',' :: ("project_name=".data ++ m.project_name.data)),
      c.isWhitespace = false := by
    intro c hc
    rcases List.mem_append.mp hc with hc | hc
    · exact (hmeas c hc).1
    · rcases List.mem_cons.mp hc with rfl | hc
      · decide
      · rcases List.mem_append.mp hc with hc | hc
        · rcases List.mem_append.mp hc with hc | hc
          · exact hlitloc c hc
          · exact pyStrInt_not_ws c hc
        · rcases List.mem_cons.mp hc with rfl | hc
          · decide
          · rcases List.mem_append.mp hc with hc | hc
            · exact hlitproj c hc
            · exact (hproj c hc).1
  have hF_ws : ∀ c ∈ "value=".data ++ pyStrFloat m.value, c.isWhitespace = false := by
    intro c hc
    rcases List.mem_append.mp hc with hc | hc
    · exact hlitval c hc
    · exact pyStrFloat_not_ws c hc
  have hT_ws : ∀ c ∈ pyStrInt (1000 * m.timestamp), c.isWhitespace = false :=
    pyStrInt_not_ws
  have hA0 : m.measurement.data ++ ',' :: (("location_id=".data ++
      pyStrInt m.location_id) ++ ',' :: ("project_name=".data ++ m.project_name.data)) ≠ [] := by
    simp
  have hF0 : "value=".data ++ pyStrFloat m.value ≠ [] := by
    simp
  have hT0 : pyStrInt (1000 * m.timestamp) ≠ [] := pyStrInt_ne_nil _
  have hstrip : pyStrip (to_lineprotocol m) = to_lineprotocol m := by
    rw [hshape]
    exact pyStrip_three _ _ _ hA0 hT0
      (fun c hc => hA_ws c (List.mem_of_mem_head? hc)) hT_ws
  have hsplit : pySplitWS (to_lineprotocol m) =
      [m.measurement.data ++ ',' :: (("location_id=".data ++ pyStrInt m.location_id) ++
        ',' :: ("project_name=".data ++ m.project_name.data)),
       "value=".data ++ pyStrFloat m.value,
       pyStrInt (1000 * m.timestamp)] := by
    rw [hshape]
    exact pySplitWS_three _ _ _ hA_ws hF_ws hT_ws hA0 hF0 hT0
  unfold from_lineprotocol
  rw [hstrip, hsplit]
  simp only []
  unfold decodeSegments
  rw [splitFirst_measurement _ _ (fun c hc => (hmeas c hc).2)]
  simp only []
  rw [readKeyValues_tags _ _ pyStrInt_ne_comma (fun c hc => (hproj c hc).2),
    readKeyValues_field _ pyStrFloat_ne_comma]
  simp only []
  rw [pyParseInt_pyStrInt]
  simp only []
  rw [influxDict_eval, influxDict_lookup_loc]
  simp only []
  rw [pyParseInt_pyStrInt]
  simp only []
  rw [influxDict_lookup_proj]
  simp only []
  rw [influxDict_lookup_value]
  simp only []
  rw [pyStripQuotes_pyStrFloat, pyParseFloat_pyStrFloat _ hval]
  simp only []
  rw [roundHalfEven_ns]
/-- C9 (amended): the decoder does not split on "the first two unescaped
spaces" — `influx_line.strip().split()` (`influx/model.py` line 125)
splits on every whitespace run and the tuple unpacking demands exactly
three segments, so any record whose split has a different length (for
example one with a backslash-escaped space inside a tag value, or a space
inside a quoted field value) fails to decode with a `ValueError`. -/
theorem from_lineprotocol_needs_three_segments (metric : Metric) (influx_line : List Char)
    (h : (pySplitWS (pyStrip influx_line)).length ≠ 3) :
    from_lineprotocol metric influx_line = .error .valueError := by
  unfold from_lineprotocol
  rcases hs : pySplitWS (pyStrip influx_line) with _ | ⟨a, _ | ⟨b, _ | ⟨c, _ | ⟨d, rest⟩⟩⟩⟩
  · rfl
  · rfl
  · rfl
  · rw [hs] at h
    simp at h
  · rfl

/-- C9 (counterexample to the claim as stated): a record whose tag value
contains a backslash-escaped space (`project_name=a\ b`) splits into four
whitespace-separated segments, so it does NOT "still decode successfully"
— `from_lineprotocol` raises a `ValueError`. -/
theorem escaped_space_tag_fails_decode :
    from_lineprotocol ⟨"project_vcpu_usage", "cpu", 1⟩
      "project_vcpu_usage,location_id=0,project_name=a\\ b value=1.0 1546300800000000000".data =
      .error .valueError ∧
    (pySplitWS (pyStrip
      "project_vcpu_usage,location_id=0,project_name=a\\ b value=1.0 1546300800000000000".data)).length = 4 := by
  constructor
  · rfl
  · rfl
/-- Concrete instance of C1: a measurement at timestamp 50 against a stored last-billed timestamp 100 is a no-op. -/
theorem stale_measurement_is_noop_witness :
    update_credits 2
      ⟨"proj", 200, some 5, [("project_vcpu_usage", 100)]⟩
      ⟨"project_vcpu_usage", 50, 0, "proj", 7, ⟨"project_vcpu_usage", "cpu", 1⟩⟩
      [(100, 3)] =
      .ok ⟨⟨"proj", 200, some 5, [("project_vcpu_usage", 100)]⟩, false, none, false⟩ :=
  stale_measurement_is_noop 2
    ⟨"proj", 200, some 5, [("project_vcpu_usage", 100)]⟩
    ⟨"project_vcpu_usage", 50, 0, "proj", 7, ⟨"project_vcpu_usage", "cpu", 1⟩⟩
    [(100, 3)] 5 100 rfl rfl (by decide)

/-- Concrete instance of C3: usage 100 to 105 at one credit per virtual hour bills 5 credits. -/
theorem calculate_credits_formula_witness :
    calculate_credits 2
      ⟨"project_vcpu_usage", 1000, 0, "p", 105, ⟨"project_vcpu_usage", "cpu", 1⟩⟩
      ⟨"project_vcpu_usage", 0, 0, "p", 100, ⟨"project_vcpu_usage", "cpu", 1⟩⟩ = .ok 5 := by
  rw [calculate_credits_formula_and_sign 2
    ⟨"project_vcpu_usage", 1000, 0, "p", 105, ⟨"project_vcpu_usage", "cpu", 1⟩⟩
    ⟨"project_vcpu_usage", 0, 0, "p", 100, ⟨"project_vcpu_usage", "cpu", 1⟩⟩ rfl]
  with_unfolding_all decide

/-- Concrete instance of C4: a two-measurement increasing run keeps `credits_used` non-decreasing at every step. -/
theorem credits_used_monotonic_witness :
    List.Chain' usedMono
      (List.scanl (fun s t => runMeasurement 2 s t.1 t.2)
        ⟨"proj", 200, some 0, [("project_vcpu_usage", 0)]⟩
        [(⟨"project_vcpu_usage", 700, 0, "proj", 105, ⟨"project_vcpu_usage", "cpu", 1⟩⟩,
            [(700, 105), (0, 100)]),
         (⟨"project_vcpu_usage", 1400, 0, "proj", 110, ⟨"project_vcpu_usage", "cpu", 1⟩⟩,
            [(1400, 110), (700, 105), (0, 100)])]) :=
  credits_used_monotonic 2 _ _
    (by rw [List.chain'_cons]; exact ⟨by decide, List.chain'_singleton _⟩)
    (by rw [List.chain'_cons]; exact ⟨by decide, List.chain'_singleton _⟩)

set_option maxRecDepth 10000 in
/-- Concrete instance of C5: billing from 99 to 104 credits out of 200 granted crosses the 50% line and raises exactly the notification. -/
theorem half_notification_iff_witness :
    ((UpdateOutcome.mk ⟨"proj", 200, some 104, [("project_vcpu_usage", 700)]⟩ true
        (some ⟨"proj", 700, 96, "project_vcpu_usage", "cpu"⟩) true).notification = true ↔
      ((UpdateOutcome.mk ⟨"proj", 200, some 104, [("project_vcpu_usage", 700)]⟩ true
        (some ⟨"proj", 700, 96, "project_vcpu_usage", "cpu"⟩) true).history ≠ none ∧
        (99 : ℚ) ≤ ((200 : ℤ) : ℚ) / 2 ∧
        ((200 : ℤ) : ℚ) / 2 <
          (UpdateOutcome.mk ⟨"proj", 200, some 104, [("project_vcpu_usage", 700)]⟩ true
            (some ⟨"proj", 700, 96, "project_vcpu_usage", "cpu"⟩) true).state.credits_used.getD 0)) ∧
    (((200 : ℤ) : ℚ) / 2 < (99 : ℚ) →
      (UpdateOutcome.mk ⟨"proj", 200, some 104, [("project_vcpu_usage", 700)]⟩ true
        (some ⟨"proj", 700, 96, "project_vcpu_usage", "cpu"⟩) true).notification = false) :=
  half_notification_iff 2 ⟨"proj", 200, some 99, [("project_vcpu_usage", 0)]⟩
    ⟨"project_vcpu_usage", 700, 0, "proj", 105, ⟨"project_vcpu_usage", "cpu", 1⟩⟩
    [(0, 100)] _ 99 (by with_unfolding_all decide) rfl

/-- Concrete instance of C6: the first-ever measurement initialises `credits_used` with 0 and records its timestamp. -/
theorem first_timestamp_initialises_witness :
    update_credits 2 ⟨"proj", 200, none, []⟩
      ⟨"project_vcpu_usage", 300, 0, "proj", 100, ⟨"project_vcpu_usage", "cpu", 1⟩⟩ [] =
      .ok ⟨⟨"proj", 200, some 0, [("project_vcpu_usage", 300)]⟩, true, none, false⟩ :=
  first_timestamp_initialises 2 ⟨"proj", 200, none, []⟩
    ⟨"project_vcpu_usage", 300, 0, "proj", 100, ⟨"project_vcpu_usage", "cpu", 1⟩⟩
    [] rfl (Or.inr rfl)

/-- Concrete instance of C7: `credits_used` unset with a non-empty timestamp map raises `DenbiCreditsUsedMissing`; the worker counts it and drains the rest of the queue. -/
theorem credits_used_missing_witness :
    update_credits 2 ⟨"proj", 200, none, [("project_mb_usage", 44)]⟩
      ⟨"project_vcpu_usage", 300, 0, "proj", 100, ⟨"project_vcpu_usage", "cpu", 1⟩⟩ [] =
      .error .denbiCreditsUsedMissing ∧
    runMeasurement 2 ⟨"proj", 200, none, [("project_mb_usage", 44)]⟩
      ⟨"project_vcpu_usage", 300, 0, "proj", 100, ⟨"project_vcpu_usage", "cpu", 1⟩⟩ [] =
      ⟨"proj", 200, none, [("project_mb_usage", 44)]⟩ ∧
    workerLoop 2 [] (⟨"proj", 200, none, [("project_mb_usage", 44)]⟩, 0)
      [⟨"project_vcpu_usage", 300, 0, "proj", 100, ⟨"project_vcpu_usage", "cpu", 1⟩⟩] =
      workerLoop 2 [] (⟨"proj", 200, none, [("project_mb_usage", 44)]⟩, 0 + 1) [] :=
  ⟨(credits_used_missing_counted_and_loop_continues 2
      ⟨"proj", 200, none, [("project_mb_usage", 44)]⟩
      ⟨"project_vcpu_usage", 300, 0, "proj", 100, ⟨"project_vcpu_usage", "cpu", 1⟩⟩
      [] rfl (by decide)).1,
    (credits_used_missing_counted_and_loop_continues 2
      ⟨"proj", 200, none, [("project_mb_usage", 44)]⟩
      ⟨"project_vcpu_usage", 300, 0, "proj", 100, ⟨"project_vcpu_usage", "cpu", 1⟩⟩
      [] rfl (by decide)).2.1,
    (credits_used_missing_counted_and_loop_continues 2
      ⟨"proj", 200, none, [("project_mb_usage", 44)]⟩
      ⟨"project_vcpu_usage", 300, 0, "proj", 100, ⟨"project_vcpu_usage", "cpu", 1⟩⟩
      [] rfl (by decide)).2.2 [] 0⟩

/-- Concrete instance of C10: an empty queried window raises `IndexError` with nothing saved. -/
theorem empty_window_index_error_witness :
    update_credits 2 ⟨"proj", 200, some 5, [("project_vcpu_usage", 100)]⟩
      ⟨"project_vcpu_usage", 700, 0, "proj", 105, ⟨"project_vcpu_usage", "cpu", 1⟩⟩ [] =
      .error .indexError ∧
    runMeasurement 2 ⟨"proj", 200, some 5, [("project_vcpu_usage", 100)]⟩
      ⟨"project_vcpu_usage", 700, 0, "proj", 105, ⟨"project_vcpu_usage", "cpu", 1⟩⟩ [] =
      ⟨"proj", 200, some 5, [("project_vcpu_usage", 100)]⟩ ∧
    workerLoop 2 [] (⟨"proj", 200, some 5, [("project_vcpu_usage", 100)]⟩, 0)
      [⟨"project_vcpu_usage", 700, 0, "proj", 105, ⟨"project_vcpu_usage", "cpu", 1⟩⟩] =
      workerLoop 2 [] (⟨"proj", 200, some 5, [("project_vcpu_usage", 100)]⟩, 0 + 1) [] :=
  ⟨(empty_window_raises_index_error 2
      ⟨"proj", 200, some 5, [("project_vcpu_usage", 100)]⟩
      ⟨"project_vcpu_usage", 700, 0, "proj", 105, ⟨"project_vcpu_usage", "cpu", 1⟩⟩
      [] 5 100 rfl rfl (by decide) rfl).1,
    (empty_window_raises_index_error 2
      ⟨"proj", 200, some 5, [("project_vcpu_usage", 100)]⟩
      ⟨"project_vcpu_usage", 700, 0, "proj", 105, ⟨"project_vcpu_usage", "cpu", 1⟩⟩
      [] 5 100 rfl rfl (by decide) rfl).2.1,
    (empty_window_raises_index_error 2
      ⟨"proj", 200, some 5, [("project_vcpu_usage", 100)]⟩
      ⟨"project_vcpu_usage", 700, 0, "proj", 105, ⟨"project_vcpu_usage", "cpu", 1⟩⟩
      [] 5 100 rfl rfl (by decide) rfl).2.2 [] 0⟩

/-- Concrete instance of C8: a vCPU measurement with value 82.5 round-trips through the line protocol. -/
theorem lineprotocol_roundtrip_witness :
    from_lineprotocol ⟨"project_vcpu_usage", "cpu", 1⟩
      (to_lineprotocol ⟨"project_vcpu_usage", 1546300800000000, 0, "myproject", 165 / 2,
        ⟨"project_vcpu_usage", "cpu", 1⟩⟩) =
      .ok ⟨"project_vcpu_usage", 1546300800000000, 0, "myproject", 165 / 2,
        ⟨"project_vcpu_usage", "cpu", 1⟩⟩ :=
  from_to_lineprotocol_roundtrip
    ⟨"project_vcpu_usage", 1546300800000000, 0, "myproject", 165 / 2,
      ⟨"project_vcpu_usage", "cpu", 1⟩⟩ (by decide) (by decide)
    (by with_unfolding_all decide)

/-- Concrete instance of C9 (amended): a quoted field value containing a space makes the record fail to decode. -/
theorem three_segments_witness :
    from_lineprotocol ⟨"project_vcpu_usage", "cpu", 1⟩
      "project_vcpu_usage,location_id=0,project_name=x value=\"hot stuff\" 1000".data =
      .error .valueError :=
  from_lineprotocol_needs_three_segments _ _ (by decide)

end OSCredits
